import Mathlib

/-
Verification of the FENaPack demo `demo/navier_flow/step3D_lu.py` and the
benchmark `test/bench/test_pcd_scaling.py`: a shallow embedding of the
boundary-marker selection, the UFL forms for the PCD preconditioner, the
Newton/Picard Jacobian choice, the solver configurations, and the mesh
stretching transform, together with proofs of the specified properties.
-/

set_option autoImplicit false

namespace Fenapack

/-! ## Boundary markers and PCD strategy tags -/

/-- Strategy tag of the demo script, `--PCD` with `choices=["BMR", "ESW"]`
(step3D_lu.py lines 51-53). -/
inductive DemoStrategy
  | ESW
  | BMR
  deriving DecidableEq

/-- PCD variant tag of the benchmark, parametrized as `"BRM1"` / `"BRM2"`
(test_pcd_scaling.py line 198). -/
inductive PCDVariant
  | BRM1
  | BRM2
  deriving DecidableEq

/-- Marker of the inflow boundary: the demo marks `Gamma1` (`near(x[0], -1.0)`)
with 1 and imposes the inflow velocity there (`bc1`, lines 96-98 and 115-117);
the benchmark marks inlet facets with 1 (test_pcd_scaling.py line 52). -/
def inflow_marker : ℕ := 1

/-- Marker of the outflow boundary: the demo marks `Gamma2` (`near(x[0], 5.0)`)
with 2 (lines 99-101, 110); the benchmark marks outlet facets with 2
(test_pcd_scaling.py line 53). -/
def outflow_marker : ℕ := 2

/-- Demo line 122: `PCD_BND_MARKER = 2 if args.pcd_strategy == "ESW" else 1`;
this is the boundary marker of the artificial Dirichlet pressure BC `bc_art`
(line 123). -/
def demo_PCD_BND_MARKER (s : DemoStrategy) : ℕ :=
  if s = DemoStrategy.ESW then 2 else 1

/-- Subdomain id of the surface measure in the demo's correction of `fp`:
`fp -= (inner(u_, n)*p*q)*ds(1)` is applied exactly when the strategy is
`"ESW"` (lines 170-171); for `"BMR"` no surface term is added. -/
def demo_fp_robin_marker : DemoStrategy → Option ℕ
  | DemoStrategy.ESW => some 1
  | DemoStrategy.BMR => none

/-- Benchmark lines 122-125: marker of the artificial Dirichlet pressure BC
`bc_pcd`: 1 for `"BRM1"`, 2 for `"BRM2"`. -/
def test_bc_pcd_marker : PCDVariant → ℕ
  | PCDVariant.BRM1 => 1
  | PCDVariant.BRM2 => 2

/-- Subdomain id of the surface measure in the benchmark's correction of `kp`:
`kp -= Constant(1.0/nu)*dot(u_, n)*p*q*ds(1)` is applied exactly when the
variant is `"BRM2"` (lines 139-142). -/
def test_kp_robin_marker : PCDVariant → Option ℕ
  | PCDVariant.BRM1 => none
  | PCDVariant.BRM2 => some 1

/-! ## Pressure-space forms of the PCD preconditioner

A pressure-space UFL form is represented as a formal linear combination of
the atomic integrals appearing in the two files. -/

/-- Atomic pressure-space integrals. -/
inductive PTerm
  /-- `inner(grad(p), grad(q))*dx` : the pressure Laplacian integrand. -/
  | lap
  /-- `dot(grad(p), u_)*q*dx` : the pressure convection integrand. -/
  | conv
  /-- `p*q*dx` : the pressure mass integrand. -/
  | mass
  /-- `inner(u_, n)*p*q*ds(marker)` : surface (Robin-correction) integrand
  over the boundary part with the given marker. -/
  | robin (marker : ℕ)
  deriving DecidableEq

/-- A pressure-space form: a formal ℚ-linear combination of atomic terms. -/
abbrev PForm := List (ℚ × PTerm)

/-- Coefficient of an atomic term in a form. -/
def coeffP : PForm → PTerm → ℚ
  | [], _ => 0
  | (c, s) :: φ, t => (if s = t then c else 0) + coeffP φ t

/-- Scalar multiple of a form. -/
def smulP (a : ℚ) (φ : PForm) : PForm :=
  φ.map (fun ct => (a * ct.1, ct.2))

/-- Sum of two forms. -/
def addP (φ ψ : PForm) : PForm := φ ++ ψ

/-- Difference of two forms (`-=` in the source). -/
def subP (φ ψ : PForm) : PForm := φ ++ smulP (-1) ψ

/-- Demo line 164: `mp = p*q*dx`. -/
def demo_mp : PForm := [(1, PTerm.mass)]

/-- Demo line 165: `ap = inner(grad(p), grad(q))*dx`. -/
def demo_ap : PForm := [(1, PTerm.lap)]

/-- Demo line 166: `kp = dot(grad(p), u_)*q*dx`. -/
def demo_kp : PForm := [(1, PTerm.conv)]

/-- Demo line 167: `fp = nu*ap + kp` (before the strategy-dependent
correction). -/
def demo_fp0 (nu : ℚ) : PForm := addP (smulP nu demo_ap) demo_kp

/-- The Robin-correction surface form `(inner(u_, n)*p*q)*ds(m)`. -/
def robin_form (m : ℕ) : PForm := [(1, PTerm.robin m)]

/-- Demo lines 167-171: `fp = nu*ap + kp`, and for strategy `"ESW"`
additionally `fp -= (inner(u_, n)*p*q)*ds(1)`. -/
def demo_fp (nu : ℚ) : DemoStrategy → PForm
  | DemoStrategy.ESW => subP (demo_fp0 nu) (robin_form 1)
  | DemoStrategy.BMR => demo_fp0 nu

/-- Benchmark line 136: `mp = Constant(1.0/nu)*p*q*dx`. -/
def bench_mp (nu : ℚ) : PForm := smulP (1 / nu) [(1, PTerm.mass)]

/-- Benchmark line 138: `ap = inner(grad(p), grad(q))*dx`. -/
def bench_ap : PForm := [(1, PTerm.lap)]

/-- Benchmark line 137: `kp = Constant(1.0/nu)*dot(grad(p), u_)*q*dx`
(before the variant-dependent correction). -/
def bench_kp0 (nu : ℚ) : PForm := smulP (1 / nu) [(1, PTerm.conv)]

/-- Benchmark lines 137-142: for variant `"BRM2"` additionally
`kp -= Constant(1.0/nu)*dot(u_, n)*p*q*ds(1)`. -/
def bench_kp (nu : ℚ) : PCDVariant → PForm
  | PCDVariant.BRM1 => bench_kp0 nu
  | PCDVariant.BRM2 => subP (bench_kp0 nu) (smulP (1 / nu) (robin_form 1))

/-! ## C1: inflow/outflow assignment of the artificial pressure BC -/

/-- C1 counterexample: the claim's inflow/outflow assignment is false on the
code. The demo's `"ESW"` strategy (claimed to be the variant-A/inflow style)
puts the artificial Dirichlet pressure BC on the outflow marker 2, not the
inflow marker 1; and in the benchmark's `"BRM2"` variant the Robin-correction
surface integral is taken over the inflow marker 1, not over the outflow
marker 2 as claimed; moreover `"BMR"` (claimed BRM2-grouped) has no Robin
correction at all. -/
theorem C1_counterexample :
    demo_PCD_BND_MARKER DemoStrategy.ESW = outflow_marker ∧
    demo_PCD_BND_MARKER DemoStrategy.ESW ≠ inflow_marker ∧
    test_kp_robin_marker PCDVariant.BRM2 = some inflow_marker ∧
    test_kp_robin_marker PCDVariant.BRM2 ≠ some outflow_marker ∧
    demo_fp_robin_marker DemoStrategy.BMR = none := by
  decide

/-- C1 (amended): in the benchmark, `"BRM1"` places the artificial Dirichlet
pressure BC on the inflow boundary (marker 1) with no Robin-correction surface
term, while `"BRM2"` places it on the outflow boundary (marker 2) with the
Robin-correction surface integral taken over the inflow boundary (marker 1);
in the demo, `"BMR"` behaves like `"BRM1"` (Dirichlet at inflow, no
correction) and `"ESW"` behaves like `"BRM2"` (Dirichlet at outflow,
correction integrated over the inflow boundary). -/
theorem C1_amended :
    (test_bc_pcd_marker PCDVariant.BRM1 = inflow_marker ∧
      test_kp_robin_marker PCDVariant.BRM1 = none) ∧
    (test_bc_pcd_marker PCDVariant.BRM2 = outflow_marker ∧
      test_kp_robin_marker PCDVariant.BRM2 = some inflow_marker) ∧
    (demo_PCD_BND_MARKER DemoStrategy.BMR = inflow_marker ∧
      demo_fp_robin_marker DemoStrategy.BMR = none) ∧
    (demo_PCD_BND_MARKER DemoStrategy.ESW = outflow_marker ∧
      demo_fp_robin_marker DemoStrategy.ESW = some inflow_marker) ∧
    coeffP (demo_fp 1 DemoStrategy.ESW) (PTerm.robin inflow_marker) = -1 ∧
    coeffP (bench_kp 1 PCDVariant.BRM2) (PTerm.robin inflow_marker) = -1 := by
  refine ⟨by decide, by decide, by decide, by decide, ?_, ?_⟩ <;>
    simp [demo_fp, demo_fp0, addP, subP, smulP, demo_ap, demo_kp,
      robin_form, bench_kp, bench_kp0, coeffP, inflow_marker]

/-! ## C3: structure of the PCD convection-diffusion operator Fp -/

/-- C3: the demo builds `fp = nu*ap + kp` (with `ap` the pressure Laplacian,
`kp` the convection form, `mp` the mass form), and subtracts the Robin
boundary-correction surface term exactly for the strategy whose artificial
pressure BC sits on the outflow boundary (`"ESW"`); for the other strategy no
surface term appears. Likewise in the benchmark, the correction is subtracted
from `kp` exactly for the outflow-BC variant `"BRM2"`. -/
theorem C3_fp_structure (nu : ℚ) :
    coeffP (demo_fp nu DemoStrategy.ESW) PTerm.lap = nu ∧
    coeffP (demo_fp nu DemoStrategy.ESW) PTerm.conv = 1 ∧
    coeffP (demo_fp nu DemoStrategy.BMR) PTerm.lap = nu ∧
    coeffP (demo_fp nu DemoStrategy.BMR) PTerm.conv = 1 ∧
    (∀ s, ∀ m, coeffP (demo_fp nu s) PTerm.mass = 0 ∧
      coeffP (demo_mp) (PTerm.robin m) = 0) ∧
    demo_PCD_BND_MARKER DemoStrategy.ESW = outflow_marker ∧
    coeffP (demo_fp nu DemoStrategy.ESW) (PTerm.robin inflow_marker) = -1 ∧
    demo_PCD_BND_MARKER DemoStrategy.BMR ≠ outflow_marker ∧
    (∀ m, coeffP (demo_fp nu DemoStrategy.BMR) (PTerm.robin m) = 0) ∧
    test_bc_pcd_marker PCDVariant.BRM2 = outflow_marker ∧
    coeffP (bench_kp nu PCDVariant.BRM2) (PTerm.robin inflow_marker)
      = -(1 / nu) ∧
    test_bc_pcd_marker PCDVariant.BRM1 ≠ outflow_marker ∧
    (∀ m, coeffP (bench_kp nu PCDVariant.BRM1) (PTerm.robin m) = 0) := by
  refine ⟨?_, ?_, ?_, ?_, ?_, by decide, ?_, by decide, ?_, by decide, ?_,
      by decide, ?_⟩
  case _ => simp [demo_fp, demo_fp0, addP, subP, smulP, demo_ap, demo_kp,
      robin_form, coeffP]
  case _ => simp [demo_fp, demo_fp0, addP, subP, smulP, demo_ap, demo_kp,
      robin_form, coeffP]
  case _ => simp [demo_fp, demo_fp0, addP, smulP, demo_ap, demo_kp, coeffP]
  case _ => simp [demo_fp, demo_fp0, addP, smulP, demo_ap, demo_kp, coeffP]
  case _ =>
    intro s m
    refine ⟨?_, by simp [demo_mp, coeffP]⟩
    cases s <;> simp [demo_fp, demo_fp0, addP, subP, smulP, demo_ap, demo_kp,
      robin_form, coeffP]
  case _ => simp [demo_fp, demo_fp0, addP, subP, smulP, demo_ap, demo_kp,
      robin_form, coeffP, inflow_marker]
  case _ =>
    intro m
    simp [demo_fp, demo_fp0, addP, smulP, demo_ap, demo_kp, coeffP]
  case _ => simp [bench_kp, bench_kp0, subP, smulP, robin_form, coeffP,
      inflow_marker]
  case _ =>
    intro m
    simp [bench_kp, bench_kp0, smulP, coeffP]

/-! ## C2: top-level control flow of the demo script

The demo script is straight-line code at module level.  We embed its
top-level statement sequence and an interpreter that executes statements in
order, halting at `exit()`.  CLI argument parsing is an external collaborator
(spec section 1); its result is the input of the model. -/

/-- Nonlinear-solver mode, `--nls` with `choices=["Newton", "Picard"]`
(step3D_lu.py lines 48-50). -/
inductive NLSMode
  | newton
  | picard
  deriving DecidableEq

/-- Parsed command-line arguments of the demo (lines 42-56). -/
structure Args where
  /-- `-l`, level of mesh refinement, default 3, an `int`. -/
  level : ℤ
  /-- `-s`, grid stretch parameter, default 1.0. -/
  stretch : ℚ
  /-- `--nu`, kinematic viscosity, default 0.02. -/
  viscosity : ℚ
  /-- `--nls`, type of nonlinear solver. -/
  nls : NLSMode
  /-- `--PCD`, strategy used for PCD preconditioning. -/
  pcd_strategy : DemoStrategy
  /-- `--save`, whether to save results. -/
  save_results : Bool

/-- Labels of the top-level statements (groups) of the demo script. -/
inductive Label
  | parseArgs
  | loadMesh
  | refineMesh
  | stretchMesh
  | plotMesh
  | interactiveShow
  | exitProgram
  | defineSpaces
  | defineBCs
  | defineProblem
  | setupInnerSolver
  | setupNonlinearSolver
  | solveProblem
  | splitSolution
  | saveResults
  | listTimingsReport
  | plotSolution
  deriving DecidableEq

/-- A top-level statement: an ordinary statement with a label, or `exit()`. -/
inductive Stmt
  | basic (l : Label)
  | exitStmt
  deriving DecidableEq

/-- The demo's top-level statement sequence (step3D_lu.py lines 38-250):
parse arguments; load the mesh; refine it `level - 1` times (line 61-63, a
`range` loop, so no iterations when `level - 1 ≤ 0`); stretch the
coordinates when `stretch != 1.0` (lines 65-77); plot the mesh; call
`interactive()`; call `exit()` (line 80); then function spaces, boundary
conditions, variational problem and PCD forms, solvers, `solver.solve`
(line 228), solution splitting, optional saving, timings, plotting. -/
def demoScript (a : Args) : List Stmt :=
  [Stmt.basic Label.parseArgs, Stmt.basic Label.loadMesh]
    ++ List.replicate (a.level - 1).toNat (Stmt.basic Label.refineMesh)
    ++ (if a.stretch ≠ 1 then [Stmt.basic Label.stretchMesh] else [])
    ++ [Stmt.basic Label.plotMesh, Stmt.basic Label.interactiveShow,
        Stmt.exitStmt,
        Stmt.basic Label.defineSpaces, Stmt.basic Label.defineBCs,
        Stmt.basic Label.defineProblem, Stmt.basic Label.setupInnerSolver,
        Stmt.basic Label.setupNonlinearSolver, Stmt.basic Label.solveProblem,
        Stmt.basic Label.splitSolution]
    ++ (if a.save_results then [Stmt.basic Label.saveResults] else [])
    ++ [Stmt.basic Label.listTimingsReport, Stmt.basic Label.plotSolution]

/-- Execute statements in order; `exit()` terminates the process, so nothing
after it runs.  The returned list is the trace of executed statements. -/
def execStmts : List Stmt → List Label
  | [] => []
  | Stmt.basic l :: rest => l :: execStmts rest
  | Stmt.exitStmt :: _ => [Label.exitProgram]

/-- Executing a block of ordinary statements prepends their labels. -/
theorem execStmts_map_basic_append (ls : List Label) (ys : List Stmt) :
    execStmts (List.map Stmt.basic ls ++ ys) = ls ++ execStmts ys := by
  induction ls with
  | nil => rfl
  | cons l ls ih => simp [execStmts, ih]

/-- The trace of the demo before `exit()`, as labels. -/
def demoHead (a : Args) : List Label :=
  [Label.parseArgs, Label.loadMesh]
    ++ List.replicate (a.level - 1).toNat Label.refineMesh
    ++ (if a.stretch ≠ 1 then [Label.stretchMesh] else [])
    ++ [Label.plotMesh, Label.interactiveShow]

/-- The demo script factors as basic statements up to `exit()`, then the
dead code. -/
theorem demoScript_eq (a : Args) :
    demoScript a =
      List.map Stmt.basic (demoHead a)
        ++ Stmt.exitStmt ::
          (List.map Stmt.basic
            ([Label.defineSpaces, Label.defineBCs, Label.defineProblem,
              Label.setupInnerSolver, Label.setupNonlinearSolver,
              Label.solveProblem, Label.splitSolution]
            ++ (if a.save_results then [Label.saveResults] else [])
            ++ [Label.listTimingsReport, Label.plotSolution])) := by
  by_cases hs : a.stretch ≠ 1 <;> by_cases hr : a.save_results <;>
    simp [demoScript, demoHead, hs, hr, List.map_replicate]

/-- C2: for every parsed command-line input, the demo's execution trace is
the statements up to and including the unconditional `exit()` on line 80
(argument parsing, mesh loading, refinement, optional stretching, mesh
plotting, `interactive()`, `exit()`), and none of the function-space
construction, solver configuration, the `solver.solve` call, or the
result-saving code after that line is ever executed. -/
theorem C2_demo_terminates_at_exit (a : Args) :
    execStmts (demoScript a) = demoHead a ++ [Label.exitProgram] ∧
    (execStmts (demoScript a)).getLast? = some Label.exitProgram ∧
    Label.defineSpaces ∉ execStmts (demoScript a) ∧
    Label.setupInnerSolver ∉ execStmts (demoScript a) ∧
    Label.setupNonlinearSolver ∉ execStmts (demoScript a) ∧
    Label.solveProblem ∉ execStmts (demoScript a) ∧
    Label.saveResults ∉ execStmts (demoScript a) := by
  have htrace : execStmts (demoScript a) = demoHead a ++ [Label.exitProgram] := by
    rw [demoScript_eq, execStmts_map_basic_append]
    rfl
  refine ⟨htrace, by rw [htrace]; simp, ?_, ?_, ?_, ?_, ?_⟩ <;>
    · rw [htrace]
      by_cases hs : a.stretch ≠ 1 <;>
        simp [demoHead, hs, List.mem_append, List.mem_replicate]

/-! ## C10: mesh-coordinate stretching -/

/-- Demo line 67: `transform_y = lambda y, alpha: np.sign(y)*(abs(y)**alpha)`,
applied to the y coordinates when `stretch != 1.0` (line 69).  Modelled over
the reals with the real power function. -/
noncomputable def transform_y (alpha y : ℝ) : ℝ :=
  Real.sign y * |y| ^ alpha

/-- Demo lines 71-76: each x coordinate `xi` is replaced by
`-1.0*abs(xi)**alpha` when `xi <= 0.0` and by `5.0*(0.2*xi)**alpha`
otherwise. -/
noncomputable def transform_x (alpha x : ℝ) : ℝ :=
  if x ≤ 0 then -1 * |x| ^ alpha else 5 * (0.2 * x) ^ alpha

/-- C10: for every stretch parameter `alpha > 0` the coordinate stretching
fixes the extreme coordinates (y ∈ {-1, 0, 1} and x ∈ {-1, 0, 5} map to
themselves), preserves the sign of y, and maps the computational box
[-1, 5] × [-1, 1] into itself, so the bounding box of the domain is
unchanged. -/
theorem C10_stretch_fixes_box (alpha : ℝ) (halpha : 0 < alpha) :
    transform_y alpha (-1) = -1 ∧
    transform_y alpha 0 = 0 ∧
    transform_y alpha 1 = 1 ∧
    transform_x alpha (-1) = -1 ∧
    transform_x alpha 0 = 0 ∧
    transform_x alpha 5 = 5 ∧
    (∀ y : ℝ, 0 < y → 0 < transform_y alpha y) ∧
    (∀ y : ℝ, y < 0 → transform_y alpha y < 0) ∧
    (∀ y : ℝ, -1 ≤ y → y ≤ 1 →
      -1 ≤ transform_y alpha y ∧ transform_y alpha y ≤ 1) ∧
    (∀ x : ℝ, -1 ≤ x → x ≤ 5 →
      -1 ≤ transform_x alpha x ∧ transform_x alpha x ≤ 5) := by
  have habs_pow_le_one : ∀ y : ℝ, |y| ≤ 1 → |y| ^ alpha ≤ 1 := fun y hy =>
    Real.rpow_le_one (abs_nonneg y) hy halpha.le
  refine ⟨?_, ?_, ?_, ?_, ?_, ?_, ?_, ?_, ?_, ?_⟩
  · simp [transform_y, Real.sign_of_neg (by norm_num : (-1:ℝ) < 0),
      Real.one_rpow]
  · simp [transform_y]
  · simp [transform_y, Real.sign_of_pos (by norm_num : (0:ℝ) < 1),
      Real.one_rpow]
  · norm_num [transform_x, Real.one_rpow]
  · norm_num [transform_x, Real.zero_rpow halpha.ne']
  · rw [transform_x, if_neg (by norm_num)]
    norm_num [Real.one_rpow]
  · intro y hy
    rw [transform_y, Real.sign_of_pos hy, one_mul]
    exact Real.rpow_pos_of_pos (abs_pos.mpr hy.ne') alpha
  · intro y hy
    rw [transform_y, Real.sign_of_neg hy, neg_one_mul, neg_neg_iff_pos]
    exact Real.rpow_pos_of_pos (abs_pos.mpr hy.ne) alpha
  · intro y hy1 hy2
    have hpow0 : 0 ≤ |y| ^ alpha := Real.rpow_nonneg (abs_nonneg y) alpha
    have hpow1 : |y| ^ alpha ≤ 1 := habs_pow_le_one y (abs_le.mpr ⟨hy1, hy2⟩)
    have hsign : |Real.sign y| ≤ 1 := by
      rcases lt_trichotomy y 0 with h | h | h
      · simp [Real.sign_of_neg h]
      · simp [h]
      · simp [Real.sign_of_pos h]
    have habs : |transform_y alpha y| ≤ 1 := by
      rw [transform_y, abs_mul, abs_of_nonneg hpow0]
      calc |Real.sign y| * (|y| ^ alpha) ≤ 1 * 1 :=
            mul_le_mul hsign hpow1 hpow0 zero_le_one
        _ = 1 := one_mul 1
    exact abs_le.mp habs
  · intro x hx1 hx5
    rw [transform_x]
    by_cases hx : x ≤ 0
    · rw [if_pos hx]
      have habs : |x| ≤ 1 := abs_le.mpr ⟨hx1, hx.trans zero_le_one⟩
      have h1 : |x| ^ alpha ≤ 1 := habs_pow_le_one x habs
      have h0 : 0 ≤ |x| ^ alpha := Real.rpow_nonneg (abs_nonneg x) alpha
      constructor <;> nlinarith
    · rw [if_neg hx]
      push_neg at hx
      have h02 : (0:ℝ) ≤ 0.2 * x := by nlinarith
      have hle1 : (0.2:ℝ) * x ≤ 1 := by nlinarith
      have h1 : (0.2 * x) ^ alpha ≤ 1 := Real.rpow_le_one h02 hle1 halpha.le
      have h0 : 0 ≤ (0.2 * x) ^ alpha := Real.rpow_nonneg h02 alpha
      constructor <;> nlinarith

/-- C10 witness: the conclusion holds at the concrete stretch parameter 2. -/
theorem C10_stretch_fixes_box_witness :
    transform_y 2 (-1) = -1 ∧ transform_y 2 1 = 1 ∧ transform_x 2 (-1) = -1 ∧
    transform_x 2 5 = 5 :=
  have h := C10_stretch_fixes_box 2 (by norm_num)
  ⟨h.1, h.2.2.1, h.2.2.2.1, h.2.2.2.2.2.1⟩

/-! ## C6: configuration of the field-split Krylov solver -/

/-- Krylov-method (KSP) type. -/
inductive KSPType
  | gmres
  | richardson
  | chebyshev
  | preonly
  deriving DecidableEq

/-- Preconditioning side. -/
inductive PCSide
  | left
  | right
  deriving DecidableEq

/-- Field-split preconditioner type. -/
inductive FieldsplitType
  | additive
  | multiplicative
  | schur
  deriving DecidableEq

/-- Schur-complement block-factorization type. -/
inductive SchurFactType
  | diag
  | lower
  | upper
  | full
  deriving DecidableEq

/-- Configuration of the field-split Krylov solver. -/
structure KrylovConfig where
  /-- The Krylov method. -/
  method : KSPType
  /-- `relative_tolerance`. -/
  relative_tolerance : ℚ
  /-- `maximum_iterations`. -/
  maximum_iterations : ℕ
  /-- `error_on_nonconvergence`. -/
  error_on_nonconvergence : Bool
  /-- GMRES restart length. -/
  gmres_restart : ℕ
  /-- Preconditioning side. -/
  pc_side : PCSide
  /-- Field-split type. -/
  fieldsplit_type : FieldsplitType
  /-- Schur factorization type. -/
  schur_fact_type : SchurFactType
  deriving DecidableEq

/-- The demo's inner solver configuration (step3D_lu.py lines 179-191):
`FieldSplitSolver(W, "gmres")` with relative tolerance `1e-6`, maximum
iterations `100`, `error_on_nonconvergence` `False`, GMRES restart `100`,
preconditioner side `"right"`, field-split type `"schur"` with factorization
type `"upper"`. -/
def demo_inner_solver : KrylovConfig where
  method := KSPType.gmres
  relative_tolerance := 1 / 1000000
  maximum_iterations := 100
  error_on_nonconvergence := false
  gmres_restart := 100
  pc_side := PCSide.right
  fieldsplit_type := FieldsplitType.schur
  schur_fact_type := SchurFactType.upper

/-- Modelled from the spec: the default configuration of `PCDKrylovSolver`,
whose implementation is not part of the two source files.  Spec section 4.3:
GMRES over the 2×2 block system, right preconditioning by an upper-triangular
Schur factorization, relative tolerance default `1e-6`, maximum iterations
default `100`, restart length default in the range 100-150 (taken here as
100); section 6: `error_on_nonconvergence` defaults to `false`. -/
def pcdKrylovSolver_default : KrylovConfig where
  method := KSPType.gmres
  relative_tolerance := 1 / 1000000
  maximum_iterations := 100
  error_on_nonconvergence := false
  gmres_restart := 100
  pc_side := PCSide.right
  fieldsplit_type := FieldsplitType.schur
  schur_fact_type := SchurFactType.upper

/-- The benchmark's linear solver (test_pcd_scaling.py lines 151-159):
`PCDKrylovSolver` with its defaults, then `relative_tolerance` set to `1e-6`
(line 157) and the GMRES restart set to `150` (line 159). -/
def test_linear_solver : KrylovConfig :=
  { pcdKrylovSolver_default with
      relative_tolerance := 1 / 1000000
      gmres_restart := 150 }

/-- C6: both field-split Krylov solvers are GMRES over the block system with
right preconditioning and an upper-triangular Schur factorization, with
relative tolerance `1e-6`, maximum iterations `100`, and a GMRES restart
length between 100 and 150 (demo: 100, benchmark: 150). -/
theorem C6_krylov_configuration :
    demo_inner_solver.method = KSPType.gmres ∧
    demo_inner_solver.pc_side = PCSide.right ∧
    demo_inner_solver.fieldsplit_type = FieldsplitType.schur ∧
    demo_inner_solver.schur_fact_type = SchurFactType.upper ∧
    demo_inner_solver.relative_tolerance = 1 / 1000000 ∧
    demo_inner_solver.maximum_iterations = 100 ∧
    100 ≤ demo_inner_solver.gmres_restart ∧
    demo_inner_solver.gmres_restart ≤ 150 ∧
    test_linear_solver.method = KSPType.gmres ∧
    test_linear_solver.pc_side = PCSide.right ∧
    test_linear_solver.fieldsplit_type = FieldsplitType.schur ∧
    test_linear_solver.schur_fact_type = SchurFactType.upper ∧
    test_linear_solver.relative_tolerance = 1 / 1000000 ∧
    test_linear_solver.maximum_iterations = 100 ∧
    100 ≤ test_linear_solver.gmres_restart ∧
    test_linear_solver.gmres_restart ≤ 150 :=
  ⟨rfl, rfl, rfl, rfl, rfl, rfl, by decide, by decide,
   rfl, rfl, rfl, rfl, rfl, rfl, by decide, by decide⟩

/-! ## C5 and C7: the nonlinear solver loop

The implementation of `NonlinearSolver` / `PCDNewtonSolver` is part of this
repository but not among the two source files; only its parameter settings and
the use of its results appear there.  The loop below is modelled from the
spec, section 4.4. -/

/-- Parameters of the nonlinear solver, as configured in the demo
(step3D_lu.py lines 216-220) and benchmark (test_pcd_scaling.py line 190). -/
structure NLParams where
  /-- `relative_tolerance`. -/
  relative_tolerance : ℚ
  /-- `maximum_iterations`. -/
  maximum_iterations : ℕ
  /-- `error_on_nonconvergence`. -/
  error_on_nonconvergence : Bool
  deriving DecidableEq

/-- Modelled from the spec: default nonlinear-solver parameters (spec
sections 4.4 and 6): relative tolerance `1e-5`, maximum iterations `25`,
`error_on_nonconvergence` false. -/
def nlDefaultParams : NLParams where
  relative_tolerance := 1 / 100000
  maximum_iterations := 25
  error_on_nonconvergence := false

/-- The demo's nonlinear solver parameters (step3D_lu.py lines 218-220):
relative tolerance `1e-5`, maximum iterations `25`,
`error_on_nonconvergence` `False`. -/
def demo_nonlinear_params : NLParams where
  relative_tolerance := 1 / 100000
  maximum_iterations := 25
  error_on_nonconvergence := false

/-- States of the nonlinear solver (spec section 4.4). -/
inductive NLState
  | initializing
  | iterating
  | converged
  | diverged
  | maxIterationsReached
  deriving DecidableEq

/-- Modelled from the spec: the outer iteration of `NonlinearSolver` (spec
section 4.4).  The external assembly and linear algebra are abstracted into
sequences: `res k` is the residual norm of the `k`-th iterate (`res 0` the
initial residual norm), `kry k` the inner Krylov iteration count of step `k`,
`lin k` whether the inner solve of step `k` converged.  On each iteration:
if the relative residual drops below the tolerance, terminate `converged`;
if the iteration count reaches the maximum, terminate
`maxIterationsReached`; if the inner solve failed and
`error_on_nonconvergence` is set, terminate `diverged`; otherwise update and
loop.  Returns final state, iteration count and aggregated inner Krylov
iterations; `fuel` bounds the recursion and is set to `maximum_iterations`
at the call site, so that it never runs out before the iteration ceiling. -/
def nlLoop (p : NLParams) (res : ℕ → ℚ) (kry : ℕ → ℕ) (lin : ℕ → Bool) :
    ℕ → ℕ → NLState × ℕ × ℕ
  | k, 0 =>
    if res k / res 0 < p.relative_tolerance then (NLState.converged, k, 0)
    else (NLState.maxIterationsReached, k, 0)
  | k, fuel + 1 =>
    if res k / res 0 < p.relative_tolerance then (NLState.converged, k, 0)
    else if p.maximum_iterations ≤ k then (NLState.maxIterationsReached, k, 0)
    else if !(lin k) && p.error_on_nonconvergence then
      (NLState.diverged, k, kry k)
    else
      let r := nlLoop p res kry lin (k + 1) fuel
      (r.1, r.2.1, kry k + r.2.2)

/-- Modelled from the spec: a full nonlinear solve.  Returns the pair
`(iteration_count, converged)` together with the aggregated inner Krylov
iteration count (spec section 4.4, "Result"). -/
def nlSolve (p : NLParams) (res : ℕ → ℚ) (kry : ℕ → ℕ) (lin : ℕ → Bool) :
    (ℕ × Bool) × ℕ :=
  let r := nlLoop p res kry lin 0 p.maximum_iterations
  ((r.2.1, decide (r.1 = NLState.converged)), r.2.2)

/-- Exact characterization of `nlLoop` when `error_on_nonconvergence` is
off: it stops `converged` at the first index meeting the relative-residual
criterion, or `maxIterationsReached` at the iteration ceiling, aggregating
the Krylov counts of the performed steps. -/
theorem nlLoop_correct (p : NLParams) (res : ℕ → ℚ) (kry : ℕ → ℕ)
    (lin : ℕ → Bool) (hflag : p.error_on_nonconvergence = false) :
    ∀ fuel k, k + fuel = p.maximum_iterations →
      (∃ j, k ≤ j ∧ j ≤ p.maximum_iterations ∧
          res j / res 0 < p.relative_tolerance ∧
          (∀ i, k ≤ i → i < j → ¬(res i / res 0 < p.relative_tolerance)) ∧
          nlLoop p res kry lin k fuel =
            (NLState.converged, j, (Finset.Ico k j).sum kry)) ∨
      ((∀ j, k ≤ j → j ≤ p.maximum_iterations →
          ¬(res j / res 0 < p.relative_tolerance)) ∧
        nlLoop p res kry lin k fuel =
          (NLState.maxIterationsReached, p.maximum_iterations,
            (Finset.Ico k p.maximum_iterations).sum kry)) := by
  intro fuel
  induction fuel with
  | zero =>
    intro k hk
    have hkmax : k = p.maximum_iterations := by omega
    by_cases hc : res k / res 0 < p.relative_tolerance
    · left
      exact ⟨k, le_refl k, hkmax.le, hc, fun i h1 h2 => by omega,
        by simp [nlLoop, hc]⟩
    · right
      constructor
      · intro j hj1 hj2
        have : j = k := by omega
        rwa [this]
      · rw [hkmax] at hc ⊢
        simp [nlLoop, hc]
  | succ fuel ih =>
    intro k hk
    by_cases hc : res k / res 0 < p.relative_tolerance
    · left
      exact ⟨k, le_refl k, by omega, hc, fun i h1 h2 => by omega,
        by simp [nlLoop, hc]⟩
    · have hle : ¬ p.maximum_iterations ≤ k := by omega
      have hstep : nlLoop p res kry lin k (fuel + 1) =
          ((nlLoop p res kry lin (k + 1) fuel).1,
           (nlLoop p res kry lin (k + 1) fuel).2.1,
           kry k + (nlLoop p res kry lin (k + 1) fuel).2.2) := by
        simp [nlLoop, hc, hle, hflag]
      rcases ih (k + 1) (by omega) with
        ⟨j, hj1, hj2, hj3, hj4, hj5⟩ | ⟨hall, heq⟩
      · left
        refine ⟨j, by omega, hj2, hj3, ?_, ?_⟩
        · intro i h1 h2
          rcases Nat.eq_or_lt_of_le h1 with h | h
          · rw [← h]; exact hc
          · exact hj4 i h h2
        · rw [hstep, hj5]
          have hsum : (Finset.Ico k j).sum kry =
              kry k + (Finset.Ico (k + 1) j).sum kry :=
            Finset.sum_eq_sum_Ico_succ_bot (by omega) kry
          rw [hsum]
      · right
        refine ⟨?_, ?_⟩
        · intro j hj1 hj2
          rcases Nat.eq_or_lt_of_le hj1 with h | h
          · rw [← h]; exact hc
          · exact hall j h hj2
        · rw [hstep, heq]
          have hsum : (Finset.Ico k p.maximum_iterations).sum kry =
              kry k + (Finset.Ico (k + 1) p.maximum_iterations).sum kry :=
            Finset.sum_eq_sum_Ico_succ_bot (by omega) kry
          rw [hsum]

/-- C5: with `error_on_nonconvergence` off (its value in the demo), the
nonlinear solve terminates in state `converged` exactly when the current
residual norm divided by the initial residual norm falls below the relative
tolerance within the iteration budget; otherwise it terminates in state
`maxIterationsReached` at the maximum iteration count; in all cases it
returns the pair `(iteration_count, converged)` together with the aggregated
inner Krylov iteration count; the defaults are relative tolerance `1e-5` and
maximum `25` iterations, the values also set by the demo. -/
theorem C5_nonlinear_termination (p : NLParams) (res : ℕ → ℚ) (kry : ℕ → ℕ)
    (lin : ℕ → Bool) (hflag : p.error_on_nonconvergence = false) :
    ((nlSolve p res kry lin).1.2 = true ↔
      ∃ j, j ≤ p.maximum_iterations ∧
        res j / res 0 < p.relative_tolerance) ∧
    ((nlSolve p res kry lin).1.2 = true →
      (nlLoop p res kry lin 0 p.maximum_iterations).1 = NLState.converged) ∧
    ((nlSolve p res kry lin).1.2 = false →
      (nlLoop p res kry lin 0 p.maximum_iterations).1 =
          NLState.maxIterationsReached ∧
        (nlSolve p res kry lin).1.1 = p.maximum_iterations) ∧
    (nlSolve p res kry lin).2 =
      (Finset.range (nlSolve p res kry lin).1.1).sum kry ∧
    nlDefaultParams.relative_tolerance = 1 / 100000 ∧
    nlDefaultParams.maximum_iterations = 25 ∧
    demo_nonlinear_params = nlDefaultParams := by
  have h := nlLoop_correct p res kry lin hflag p.maximum_iterations 0
    (by omega)
  rcases h with ⟨j, _, hj2, hj3, _, hj5⟩ | ⟨hall, heq⟩
  · refine ⟨?_, ?_, ?_, ?_, rfl, rfl, rfl⟩
    · constructor
      · intro _
        exact ⟨j, hj2, hj3⟩
      · intro _
        simp [nlSolve, hj5]
    · intro _
      rw [hj5]
    · intro hfalse
      exfalso
      rw [nlSolve] at hfalse
      simp [hj5] at hfalse
    · rw [nlSolve]
      simp [hj5]
  · refine ⟨?_, ?_, ?_, ?_, rfl, rfl, rfl⟩
    · constructor
      · intro htrue
        rw [nlSolve] at htrue
        simp [heq] at htrue
      · intro ⟨j, hj1, hj2⟩
        exact absurd hj2 (hall j (Nat.zero_le j) hj1)
    · intro htrue
      exfalso
      rw [nlSolve] at htrue
      simp [heq] at htrue
    · intro _
      rw [nlSolve]
      simp [heq]
    · rw [nlSolve]
      simp [heq]

/-- Residual-norm sequence used to instantiate C5: initial residual 1, then
residual 0, so the solve converges at iteration 1. -/
def c5res : ℕ → ℚ := fun k => if k = 0 then 1 else 0

/-- Inner Krylov iteration counts used to instantiate C5. -/
def c5kry : ℕ → ℕ := fun _ => 7

/-- Inner convergence flags used to instantiate C5. -/
def c5lin : ℕ → Bool := fun _ => true

/-- C5 witness: the characterization applies to the demo's parameters (whose
`error_on_nonconvergence` is `False`) on a concrete residual sequence. -/
theorem C5_nonlinear_termination_witness :
    (nlSolve demo_nonlinear_params c5res c5kry c5lin).2 =
      (Finset.range
        (nlSolve demo_nonlinear_params c5res c5kry c5lin).1.1).sum c5kry ∧
    demo_nonlinear_params = nlDefaultParams :=
  have h := C5_nonlinear_termination demo_nonlinear_params c5res c5kry c5lin
    rfl
  ⟨h.2.2.2.1, h.2.2.2.2.2.2⟩

/-! ## C7: non-convergence is reported, not raised, unless opted in -/

/-- Error raised by a solver on non-convergence when configured to do so. -/
inductive SolveError
  | nonConvergence
  deriving DecidableEq

/-- Modelled from the spec: how a solve (linear or nonlinear) ends (spec
sections 4.3, 4.4 and 7): if it did not converge and the
`error_on_nonconvergence` flag is set, a fatal error is raised; otherwise
the reached (possibly inaccurate) solution vector is returned together with
the iteration count and the `converged` flag. -/
def finishSolve {α : Type} (errorOnNonconv : Bool) (sol : α) (iters : ℕ)
    (conv : Bool) : Except SolveError (α × ℕ × Bool) :=
  if !conv && errorOnNonconv then Except.error SolveError.nonConvergence
  else Except.ok (sol, iters, conv)

/-- Modelled from the spec: the outcome of a nonlinear solve as seen by the
caller: the solution vector reached, the iteration count and converged flag
from `nlSolve`, passed through the non-convergence policy. -/
def nlSolveReport {α : Type} (p : NLParams) (res : ℕ → ℚ) (kry : ℕ → ℕ)
    (lin : ℕ → Bool) (sol : α) : Except SolveError (α × ℕ × Bool) :=
  finishSolve p.error_on_nonconvergence sol (nlSolve p res kry lin).1.1
    (nlSolve p res kry lin).1.2

/-- C7: with the `error_on_nonconvergence` flag false (its default, and its
value for both solvers in the demo), a solve never raises: it returns the
solution vector reached together with the iteration count and the converged
flag (also when that flag is false), so non-convergence is carried in the
return value; only with the flag set does a non-converged solve become a
fatal error. -/
theorem C7_nonconvergence_reported {α : Type} (rtol : ℚ) (maxit : ℕ)
    (res : ℕ → ℚ) (kry : ℕ → ℕ) (lin : ℕ → Bool) (sol : α) :
    (nlSolveReport ⟨rtol, maxit, false⟩ res kry lin sol =
      Except.ok (sol, (nlSolve ⟨rtol, maxit, false⟩ res kry lin).1.1,
        (nlSolve ⟨rtol, maxit, false⟩ res kry lin).1.2)) ∧
    (∀ (conv : Bool) (iters : ℕ),
      finishSolve false sol iters conv = Except.ok (sol, iters, conv)) ∧
    (∀ iters : ℕ,
      finishSolve true sol iters false =
        Except.error SolveError.nonConvergence) ∧
    demo_inner_solver.error_on_nonconvergence = false ∧
    demo_nonlinear_params.error_on_nonconvergence = false := by
  refine ⟨?_, ?_, ?_, rfl, rfl⟩
  · simp [nlSolveReport, finishSolve]
  · intro conv iters
    simp [finishSolve]
  · intro iters
    simp [finishSolve]

/-! ## C4: Newton versus Picard Jacobian

The mixed variational forms are embedded symbolically: a form is a formal
ℚ-linear combination of the atomic integrands occurring in the two files,
each atomic integrand recording which of its velocity/pressure slots holds a
trial function (`u`, `p`) and which holds the previous iterate (`u_`, `p_`).
UFL's `derivative(F, w)` is embedded as the symbolic Gateaux derivative
with respect to the iterate in the direction of the trial functions, and its
exactness is certified semantically below. -/

/-- A velocity slot: the trial function `u` or the current iterate `u_`. -/
inductive VSym
  | trial
  | iter
  deriving DecidableEq

/-- A pressure slot: the trial function `p` or the current iterate `p_`. -/
inductive PSym
  | ptrial
  | piter
  deriving DecidableEq

/-- Atomic integrands of the mixed forms in the two files (`v`, `q` are the
test functions, `nu` is folded into the viscous weight). -/
inductive FTerm
  /-- `nu*inner(grad(a), grad(v))*dx`. -/
  | viscous (a : VSym)
  /-- `inner(dot(grad(a), b), v)*dx` : convection, gradient slot `a`,
  convecting-velocity slot `b`. -/
  | convect (a : VSym) (b : VSym)
  /-- `inner(div(outer(a, b)), v)*dx` : the skew variant of the convection
  term in the benchmark. -/
  | convdiv (a : VSym) (b : VSym)
  /-- `a*div(v)*dx`. -/
  | pdiv (a : PSym)
  /-- `q*div(a)*dx`. -/
  | qdiv (a : VSym)
  /-- `inner(f, v)*dx`. -/
  | forcing
  deriving DecidableEq

/-- A mixed form: a formal ℚ-linear combination of atomic integrands. -/
abbrev MForm := List (ℚ × FTerm)

/-- Coefficient of an atomic integrand in a mixed form. -/
def coeffM : MForm → FTerm → ℚ
  | [], _ => 0
  | (c, s) :: φ, t => (if s = t then c else 0) + coeffM φ t

/-- Symbolic Gateaux derivative of one atomic integrand with respect to the
iterate, in the direction of the trial functions: every occurrence of the
iterate is replaced by the trial function once (product rule); terms without
the iterate, and the constant forcing term, have derivative zero. -/
def dTerm : FTerm → MForm
  | FTerm.viscous VSym.iter => [(1, FTerm.viscous VSym.trial)]
  | FTerm.viscous VSym.trial => []
  | FTerm.convect a b =>
      (if a = VSym.iter then [((1 : ℚ), FTerm.convect VSym.trial b)]
        else []) ++
      (if b = VSym.iter then [((1 : ℚ), FTerm.convect a VSym.trial)]
        else [])
  | FTerm.convdiv a b =>
      (if a = VSym.iter then [((1 : ℚ), FTerm.convdiv VSym.trial b)]
        else []) ++
      (if b = VSym.iter then [((1 : ℚ), FTerm.convdiv a VSym.trial)]
        else [])
  | FTerm.pdiv PSym.piter => [(1, FTerm.pdiv PSym.ptrial)]
  | FTerm.pdiv PSym.ptrial => []
  | FTerm.qdiv VSym.iter => [(1, FTerm.qdiv VSym.trial)]
  | FTerm.qdiv VSym.trial => []
  | FTerm.forcing => []

/-- Symbolic Gateaux derivative of a mixed form: `derivative(F, w)` of UFL. -/
def derivativeForm : MForm → MForm
  | [] => []
  | (c, t) :: φ =>
      (dTerm t).map (fun dt => (c * dt.1, dt.2)) ++ derivativeForm φ

/-- The demo's residual form `F` (step3D_lu.py lines 142-148):
`nu*inner(grad(u_), grad(v)) + inner(dot(grad(u_), u_), v) - p_*div(v)
- q*div(u_) - inner(f, v)`, all `*dx`. -/
def F_residual : MForm :=
  [(1, FTerm.viscous VSym.iter),
   (1, FTerm.convect VSym.iter VSym.iter),
   (-1, FTerm.pdiv PSym.piter),
   (-1, FTerm.qdiv VSym.iter),
   (-1, FTerm.forcing)]

/-- The demo's Jacobian (lines 150-158): `derivative(F, w)` in Newton mode,
and the frozen-convection form `nu*inner(grad(u), grad(v))
+ inner(dot(grad(u), u_), v) - p*div(v) - q*div(u)` in Picard mode; the
choice depends only on the configured mode. -/
def demo_J : NLSMode → MForm
  | NLSMode.newton => derivativeForm F_residual
  | NLSMode.picard =>
      [(1, FTerm.viscous VSym.trial),
       (1, FTerm.convect VSym.trial VSym.iter),
       (-1, FTerm.pdiv PSym.ptrial),
       (-1, FTerm.qdiv VSym.trial)]

/-- The benchmark's residual form (test_pcd_scaling.py lines 81-87), with
the convection split `alpha*inner(dot(grad(u_), u_), v)
+ (1-alpha)*inner(div(outer(u_, u_)), v)`. -/
def bench_F (alpha : ℚ) : MForm :=
  [(1, FTerm.viscous VSym.iter),
   (alpha, FTerm.convect VSym.iter VSym.iter),
   (1 - alpha, FTerm.convdiv VSym.iter VSym.iter),
   (-1, FTerm.pdiv PSym.piter),
   (-1, FTerm.qdiv VSym.iter)]

/-- The benchmark's Jacobian (lines 89-99): for `"picard"` the
frozen-convection form with the convecting velocity `u_`, for `"newton"`
`derivative(F, w)`. -/
def bench_J (alpha : ℚ) : NLSMode → MForm
  | NLSMode.newton => derivativeForm (bench_F alpha)
  | NLSMode.picard =>
      [(1, FTerm.viscous VSym.trial),
       (alpha, FTerm.convect VSym.trial VSym.iter),
       (1 - alpha, FTerm.convdiv VSym.trial VSym.iter),
       (-1, FTerm.pdiv PSym.ptrial),
       (-1, FTerm.qdiv VSym.trial)]

/-- A scalar semantics of the symbolic forms: amplitudes of the trial and
iterate slots and weights of the geometric integrals.  The convection-type
integrands are bilinear in their two velocity slots, the others linear. -/
structure FEnv where
  /-- Amplitude of the velocity trial function. -/
  uT : ℚ
  /-- Amplitude of the velocity iterate. -/
  uI : ℚ
  /-- Amplitude of the pressure trial function. -/
  pT : ℚ
  /-- Amplitude of the pressure iterate. -/
  pI : ℚ
  /-- Weight of the viscous integral (with `nu` folded in). -/
  gVisc : ℚ
  /-- Weight of the convection integral. -/
  gConv : ℚ
  /-- Weight of the skew convection integral. -/
  gConvdiv : ℚ
  /-- Weight of the pressure-divergence integral. -/
  gPdiv : ℚ
  /-- Weight of the velocity-divergence integral. -/
  gQdiv : ℚ
  /-- Weight of the forcing integral. -/
  gForce : ℚ

/-- Value of a velocity slot. -/
def evalVSym (e : FEnv) : VSym → ℚ
  | VSym.trial => e.uT
  | VSym.iter => e.uI

/-- Value of a pressure slot. -/
def evalPSym (e : FEnv) : PSym → ℚ
  | PSym.ptrial => e.pT
  | PSym.piter => e.pI

/-- Value of an atomic integrand. -/
def evalTerm (e : FEnv) : FTerm → ℚ
  | FTerm.viscous a => evalVSym e a * e.gVisc
  | FTerm.convect a b => evalVSym e a * evalVSym e b * e.gConv
  | FTerm.convdiv a b => evalVSym e a * evalVSym e b * e.gConvdiv
  | FTerm.pdiv a => evalPSym e a * e.gPdiv
  | FTerm.qdiv a => evalVSym e a * e.gQdiv
  | FTerm.forcing => e.gForce

/-- Value of a mixed form. -/
def evalForm (e : FEnv) : MForm → ℚ
  | [] => 0
  | (c, t) :: φ => c * evalTerm e t + evalForm e φ

/-- C4: the Jacobian is a pure function of the configured mode.  In Newton
mode it is the symbolic derivative of the residual `F`, and that derivative
is exact: perturbing the iterate by `s` times a direction changes the value
of `F` by `s` times the value of the derivative form (with the trial slots
holding the direction) up to an explicit `s^2` remainder, for every
semantic interpretation.  In Picard mode the convecting-velocity slot of the
convection term holds the previous iterate `u_` and the gradient slot holds
the trial function, with no term differentiating the convecting velocity;
Newton equals Picard plus exactly the reaction term
`inner(dot(grad(u_), u), v)`. -/
theorem C4_jacobian_mode (alpha uw pw du dp gV gC gCd gP gQ gF s : ℚ) :
    demo_J NLSMode.newton = derivativeForm F_residual ∧
    bench_J alpha NLSMode.newton = derivativeForm (bench_F alpha) ∧
    evalForm ⟨du, uw + s * du, dp, pw + s * dp, gV, gC, gCd, gP, gQ, gF⟩
        F_residual =
      evalForm ⟨du, uw, dp, pw, gV, gC, gCd, gP, gQ, gF⟩ F_residual +
      s * evalForm ⟨du, uw, dp, pw, gV, gC, gCd, gP, gQ, gF⟩
        (demo_J NLSMode.newton) +
      s ^ 2 * (du * du * gC) ∧
    evalForm ⟨du, uw + s * du, dp, pw + s * dp, gV, gC, gCd, gP, gQ, gF⟩
        (bench_F alpha) =
      evalForm ⟨du, uw, dp, pw, gV, gC, gCd, gP, gQ, gF⟩ (bench_F alpha) +
      s * evalForm ⟨du, uw, dp, pw, gV, gC, gCd, gP, gQ, gF⟩
        (bench_J alpha NLSMode.newton) +
      s ^ 2 * (du * du * (alpha * gC + (1 - alpha) * gCd)) ∧
    coeffM (demo_J NLSMode.picard) (FTerm.convect VSym.trial VSym.iter)
        = 1 ∧
    coeffM (demo_J NLSMode.picard) (FTerm.convect VSym.iter VSym.trial)
        = 0 ∧
    coeffM (demo_J NLSMode.picard) (FTerm.convect VSym.iter VSym.iter)
        = 0 ∧
    coeffM (bench_J alpha NLSMode.picard)
        (FTerm.convect VSym.trial VSym.iter) = alpha ∧
    coeffM (bench_J alpha NLSMode.picard)
        (FTerm.convect VSym.iter VSym.trial) = 0 ∧
    coeffM (bench_J alpha NLSMode.picard)
        (FTerm.convdiv VSym.trial VSym.iter) = 1 - alpha ∧
    coeffM (bench_J alpha NLSMode.picard)
        (FTerm.convdiv VSym.iter VSym.trial) = 0 ∧
    (∀ t, coeffM (demo_J NLSMode.newton) t =
      coeffM (demo_J NLSMode.picard) t +
      coeffM [(1, FTerm.convect VSym.iter VSym.trial)] t) := by
  refine ⟨rfl, rfl, ?_, ?_, ?_, ?_, ?_, ?_, ?_, ?_, ?_, ?_⟩
  · simp [demo_J, F_residual, derivativeForm, dTerm, evalForm, evalTerm,
      evalVSym, evalPSym]
    ring
  · simp [bench_J, bench_F, derivativeForm, dTerm, evalForm, evalTerm,
      evalVSym, evalPSym]
    ring
  · simp [demo_J, coeffM]
  · simp [demo_J, coeffM]
  · simp [demo_J, coeffM]
  · simp [bench_J, coeffM]
  · simp [bench_J, coeffM]
  · simp [bench_J, coeffM]
  · simp [bench_J, coeffM]
  · intro t
    cases t with
    | viscous a => cases a <;>
        simp [demo_J, F_residual, derivativeForm, dTerm, coeffM]
    | convect a b => cases a <;> cases b <;>
        simp [demo_J, F_residual, derivativeForm, dTerm, coeffM]
    | convdiv a b => cases a <;> cases b <;>
        simp [demo_J, F_residual, derivativeForm, dTerm, coeffM]
    | pdiv a => cases a <;>
        simp [demo_J, F_residual, derivativeForm, dTerm, coeffM]
    | qdiv a => cases a <;>
        simp [demo_J, F_residual, derivativeForm, dTerm, coeffM]
    | forcing =>
        simp [demo_J, F_residual, derivativeForm, dTerm, coeffM]

/-! ## C8: viscosity scaling of the PCD operators

At the algebraic level, the assembled pressure-space operators are square
matrices.  The demo hands the library `fp = nu*ap + kp` and `mp = p*q*dx`;
the benchmark hands it `mp' = (1/nu)*mp`, `kp' = (1/nu)*kp` and the
unscaled `ap`. -/

/-- The demo's assembled `Fp`: `fp = nu*ap + kp` (step3D_lu.py line 167). -/
def demo_Fp_mat {n : ℕ} (nu : ℚ) (Ap Kp : Matrix (Fin n) (Fin n) ℚ) :
    Matrix (Fin n) (Fin n) ℚ :=
  nu • Ap + Kp

/-- The benchmark's assembled mass operator:
`mp = Constant(1.0/nu)*p*q*dx` (test_pcd_scaling.py line 136). -/
def bench_Mp_mat {n : ℕ} (nu : ℚ) (Mp : Matrix (Fin n) (Fin n) ℚ) :
    Matrix (Fin n) (Fin n) ℚ :=
  (1 / nu) • Mp

/-- The benchmark's assembled convection operator:
`kp = Constant(1.0/nu)*dot(grad(p), u_)*q*dx` (line 137). -/
def bench_Kp_mat {n : ℕ} (nu : ℚ) (Kp : Matrix (Fin n) (Fin n) ℚ) :
    Matrix (Fin n) (Fin n) ℚ :=
  (1 / nu) • Kp

/-- Modelled from the spec: the convection-diffusion operator assembled by
the PCD preconditioner from the `ap` and `kp` supplied by the benchmark,
whose `PCDProblem` call (line 146) passes no viscosity, so
`Fp = Ap + Kp` with the benchmark's viscosity-scaled `Kp`. -/
def bench_Fp_mat {n : ℕ} (nu : ℚ) (Ap Kp : Matrix (Fin n) (Fin n) ℚ) :
    Matrix (Fin n) (Fin n) ℚ :=
  Ap + bench_Kp_mat nu Kp

/-- Application of the PCD Schur-complement approximation
`S⁻¹ ≈ Mp⁻¹ · Fp · Ap⁻¹` to a pressure vector, with the two inner inverses
given as matrices. -/
def pcdApply {n : ℕ} (MpInv Fp ApInv : Matrix (Fin n) (Fin n) ℚ)
    (x : Fin n → ℚ) : Fin n → ℚ :=
  Matrix.mulVec MpInv (Matrix.mulVec Fp (Matrix.mulVec ApInv x))

/-- C8: the demo's PCD scaling and the benchmark's viscosity-scaled variant
define the same Schur-complement approximation.  For every viscosity
`nu ≠ 0`, if `MpInv` inverts `Mp` then `nu • MpInv` inverts the benchmark's
scaled mass matrix `(1/nu) • Mp`, and applying
`(benchmark Mp)⁻¹ · (benchmark Fp) · Ap⁻¹` to any pressure vector gives the
same result as `Mp⁻¹ · (nu•Ap + Kp) · Ap⁻¹`: the `nu` factors cancel. -/
theorem C8_scaling_equivalence {n : ℕ} (nu : ℚ) (hnu : nu ≠ 0)
    (Ap Kp Mp ApInv MpInv : Matrix (Fin n) (Fin n) ℚ)
    (hMp : MpInv * Mp = 1) :
    (nu • MpInv) * bench_Mp_mat nu Mp = 1 ∧
    ∀ x : Fin n → ℚ,
      pcdApply (nu • MpInv) (bench_Fp_mat nu Ap Kp) ApInv x =
        pcdApply MpInv (demo_Fp_mat nu Ap Kp) ApInv x := by
  constructor
  · rw [bench_Mp_mat, Matrix.smul_mul, Matrix.mul_smul, smul_smul,
      mul_one_div_cancel hnu, one_smul, hMp]
  · intro x
    rw [pcdApply, pcdApply, bench_Fp_mat, bench_Kp_mat, demo_Fp_mat]
    rw [Matrix.add_mulVec, Matrix.add_mulVec, Matrix.smul_mulVec_assoc,
      Matrix.smul_mulVec_assoc, Matrix.smul_mulVec_assoc,
      Matrix.mulVec_add, Matrix.mulVec_add, Matrix.mulVec_smul,
      Matrix.mulVec_smul, smul_add, smul_smul, mul_one_div_cancel hnu,
      one_smul]

/-- C8 witness: the equivalence holds at a concrete instance (dimension 1,
viscosity 2, `Ap = Mp = ApInv = MpInv = 1`, `Kp = 0`, vector `1`). -/
theorem C8_scaling_equivalence_witness :
    ((2 : ℚ) • (1 : Matrix (Fin 1) (Fin 1) ℚ)) * bench_Mp_mat 2 1 = 1 ∧
    pcdApply ((2 : ℚ) • (1 : Matrix (Fin 1) (Fin 1) ℚ))
        (bench_Fp_mat 2 1 0) 1 (fun _ => 1) =
      pcdApply 1 (demo_Fp_mat 2 1 0) 1 (fun _ => 1) :=
  have h := @C8_scaling_equivalence 1 2 (by norm_num) 1 0 1 1 1
    (by rw [Matrix.one_mul])
  ⟨h.1, h.2 (fun _ => 1)⟩

end Fenapack
